import Mathlib

/-!
Shallow embedding of src/pathy/gcs.py, the Google Cloud Storage adapter of
the pathy path library.

The vendor SDK (google.cloud.storage) is an external collaborator: it is
modelled abstractly by the structure GCSClient below, whose fields record
what each vendor call returns (or which client error it raises).  Python
generator functions (scandir, list_blobs) are modelled as the full list of
values they yield together with the client error, if any, that escaped the
generator when it was driven to completion (structure GenResult).

The base classes PurePathy, Blob, Bucket, BucketEntry and ClientError come
from modules of this repository that are not part of the sources here
(pathy/base.py and pathy/client.py); their data shape is modelled from the
spec, as documented on each such definition.
-/

namespace PathyGCS

/-- Modelled from the spec: the flavour-defined path separator, used both
for prefix matching and for name splitting (the Python code reads it as
the expression on path of the attribute chain flavour, then sep). -/
def sep : String := "/"

/-- The separator as its single character. -/
def sepChar : Char := '/'

/-- Python str.split for a one-character separator, over character lists:
splitting an empty string gives one empty segment, and every separator
occurrence starts a new segment. -/
def splitChars (c : Char) : List Char → List (List Char)
  | [] => [[]]
  | a :: rest =>
    match splitChars c rest with
    | [] => [[]]
    | seg :: segs => if a = c then [] :: seg :: segs else (a :: seg) :: segs

/-- The Python expression that splits a string on the separator and takes
the last element: since str.split never returns an empty list, the default
of getLastD is unreachable. -/
def splitLastSeg (s : String) : String :=
  String.mk ((splitChars sepChar s.data).getLastD [])

/-- The Python expression that asks whether a string ends with the
one-character separator. -/
def endsWithSep (s : String) : Bool := s.data.getLast? == some sepChar

/-- The Python slice that drops the final character of a string. -/
def dropLastChar (s : String) : String := String.mk s.data.dropLast

/-- Python a.startswith(b). -/
def pyStartsWith (a b : String) : Bool := b.data.isPrefixOf a.data

/-- Modelled from the spec: a structured path, root = bucket name and
key = object path within the bucket (pathy/base.py is not in src). -/
structure PurePathy where
  root : String
  key : String
deriving DecidableEq

/-- A vendor datetime value; its timestamp method yields epoch seconds. -/
structure GDateTime where
  ts : Int
deriving DecidableEq

/-- The vendor datetime timestamp conversion. -/
def GDateTime.timestamp (d : GDateTime) : Int := d.ts

/-- A vendor storage blob record, with the fields gcs.py reads from list
items: full key name, size, update time and owner. -/
structure NativeBlob where
  name : String
  size : Nat
  updated : GDateTime
  owner : Option String
deriving DecidableEq

/-- A vendor storage bucket handle. -/
structure NativeBucket where
  name : String
deriving DecidableEq

/-- The vendor client-error data (google api_core ClientError): a message
and a status code. -/
structure GcsError where
  message : String
  code : Nat
deriving DecidableEq

/-- One page of a paginated vendor listing response: the common-prefix
strings (folder-like groupings) and the direct items. -/
structure Page where
  prefixes : List String
  items : List NativeBlob
deriving DecidableEq

/-- A vendor listing response: its pages and the continuation token that
is None when no further fetch is needed. -/
structure ListResponse where
  pages : List Page
  next_page_token : Option String
deriving DecidableEq

/-- Model of the vendor storage client as used by gcs.py.  bucket models
the vendor bucket-lookup call, which may raise a client error or report
no bucket.  list_buckets models the vendor bucket enumeration.
pagination gives, for a bucket name, a prefix and a delimiter, the
successive results of the repeated vendor list_blobs fetches (the n-th
list element is the n-th fetch, the later ones carrying the continuation
token of their predecessor); each fetch either returns a response or
raises a client error. -/
structure GCSClient where
  bucket : String → Except GcsError (Option NativeBucket)
  list_buckets : List NativeBucket
  pagination : String → Option String → Option String → List (Except GcsError ListResponse)

/-- BucketGCS from gcs.py: a name and the native bucket handle. -/
structure BucketGCS where
  name : String
  bucket : NativeBucket
deriving DecidableEq

/-- Modelled from the spec (pathy/client.py Blob base is not in src): the
generic blob record, parametric in the type of its bucket back-reference
exactly as the Python generic Blob is; gcs.py fills bucket, owner, name,
raw, size and updated (epoch seconds). -/
structure BlobGCS (B : Type) where
  bucket : B
  owner : Option String
  name : String
  raw : NativeBlob
  size : Nat
  updated : Int
deriving DecidableEq

/-- Modelled from the spec (pathy/client.py BucketEntry base is not in
src): name, is_dir, optional size, optional last_modified as epoch
seconds, optional raw vendor handle. -/
structure BucketEntryGCS where
  name : String
  is_dir : Bool
  size : Option Nat
  last_modified : Option Int
  raw : Option NativeBlob
deriving DecidableEq

/-- The observable behaviour of running a Python generator to
completion: the values it yielded, in order, and the client error that
escaped it, if any (none when it terminated normally). -/
structure GenResult (α : Type) where
  yielded : List α
  error : Option GcsError
deriving DecidableEq

/-- BucketClientGCS.lookup_bucket: build a BucketGCS named str of the
path root around the native bucket returned by the vendor bucket call;
a vendor client error is swallowed (printed) and, like a None native
bucket, gives None. -/
def lookup_bucket (c : GCSClient) (path : PurePathy) : Option BucketGCS :=
  match c.bucket path.root with
  | .ok (some native_bucket) => some ⟨path.root, native_bucket⟩
  | .ok none => none
  | .error _ => none

/-- The two ways BucketClientGCS.get_bucket can fail: the
FileNotFoundError it raises when the vendor lookup yields no bucket, and
the internal ClientError it re-raises, carrying the vendor message and
code, when the vendor call raises a client error. -/
inductive GetBucketError
  | fileNotFound (msg : String)
  | clientError (message : String) (code : Nat)
deriving DecidableEq

/-- BucketClientGCS.get_bucket: like lookup_bucket, but a missing bucket
raises FileNotFoundError (raised inside the try block, yet not caught by
the except clause, which only matches the vendor client-error class) and
a vendor client error is re-raised as the internal ClientError. -/
def get_bucket (c : GCSClient) (path : PurePathy) : Except GetBucketError BucketGCS :=
  match c.bucket path.root with
  | .ok (some native_bucket) => .ok ⟨path.root, native_bucket⟩
  | .ok none => .error (.fileNotFound ("Bucket " ++ path.root ++ " does not exist!"))
  | .error e => .error (.clientError e.message e.code)

/-- The body of the per-page loop of BucketClientGCS.scandir: each common
prefix is stripped of a trailing separator, split on the separator, and
its last segment yields a directory entry when non-empty; each item
yields a file entry named by the last segment of its full key when that
segment is non-empty, carrying size and the update timestamp. -/
def processScanPage (page : Page) : List BucketEntryGCS :=
  page.prefixes.filterMap (fun folder =>
    let full_name := if endsWithSep folder then dropLastChar folder else folder
    let name := splitLastSeg full_name
    if name = "" then none
    else some ⟨name, true, none, none, none⟩)
  ++ page.items.filterMap (fun item =>
    let name := splitLastSeg item.name
    if name = "" then none
    else some ⟨name, false, some item.size, some item.updated.timestamp, some item⟩)

/-- The pagination while-loop of scandir over the successive fetch
results: a fetch that raises ends the generator with that error; a
response has its pages processed, and the loop continues exactly when a
next_page_token is present. -/
def scanLoop : List (Except GcsError ListResponse) → GenResult BucketEntryGCS
  | [] => ⟨[], none⟩
  | .error e :: _ => ⟨[], some e⟩
  | .ok ⟨pages, none⟩ :: _ => ⟨(pages.map processScanPage).flatten, none⟩
  | .ok ⟨pages, some _⟩ :: rest =>
    let tail := scanLoop rest
    ⟨(pages.map processScanPage).flatten ++ tail.yielded, tail.error⟩

/-- BucketClientGCS.scandir: with no path or an empty root, one directory
entry per bucket of the vendor bucket enumeration; otherwise resolve the
bucket (terminating with no entries when lookup fails) and run the
pagination loop over the vendor fetches for the bucket name, the given
prefix and the flavour separator as delimiter (the delimiter argument of
scandir itself is unused by the code). -/
def scandir (c : GCSClient) (path : Option PurePathy) (pre delimiter : Option String) :
    GenResult BucketEntryGCS :=
  match path with
  | none => ⟨c.list_buckets.map (fun b => ⟨b.name, true, none, none, none⟩), none⟩
  | some p =>
    if p.root = "" then
      ⟨c.list_buckets.map (fun b => ⟨b.name, true, none, none, none⟩), none⟩
    else
      match lookup_bucket c p with
      | none => ⟨[], none⟩
      | some bucket => scanLoop (c.pagination bucket.name pre (some sep))

/-- The BlobGCS record list_blobs builds from one listing item. -/
def mkBlob (bucket : BucketGCS) (item : NativeBlob) : BlobGCS BucketGCS :=
  ⟨bucket, item.owner, item.name, item, item.size, item.updated.timestamp⟩

/-- The pagination while-loop of list_blobs: every item of every page of
a response becomes one record; the loop continues exactly when a
next_page_token is present, and a fetch that raises ends the generator
with that error. -/
def blobLoop (bucket : BucketGCS) : List (Except GcsError ListResponse) → GenResult (BlobGCS BucketGCS)
  | [] => ⟨[], none⟩
  | .error e :: _ => ⟨[], some e⟩
  | .ok ⟨pages, none⟩ :: _ =>
    ⟨(pages.map (fun page => page.items.map (mkBlob bucket))).flatten, none⟩
  | .ok ⟨pages, some _⟩ :: rest =>
    let tail := blobLoop bucket rest
    ⟨(pages.map (fun page => page.items.map (mkBlob bucket))).flatten ++ tail.yielded, tail.error⟩

/-- BucketClientGCS.list_blobs: resolve the bucket (no entries when the
lookup fails), then run the pagination loop over the vendor fetches for
the path root, the given prefix and the given delimiter. -/
def list_blobs (c : GCSClient) (path : PurePathy) (pre delimiter : Option String) :
    GenResult (BlobGCS BucketGCS) :=
  match lookup_bucket c path with
  | none => ⟨[], none⟩
  | some bucket => blobLoop bucket (c.pagination path.root pre delimiter)

/-- The for-loop of BucketClientGCS.exists over the blobs yielded by
list_blobs: return True at the first object whose name equals the key or
starts with key followed by the separator.  A client error raised during
the iteration is caught and returns False, and normal exhaustion returns
False; both give the same value, so the loop result is a function of the
yielded objects alone. -/
def existsLoop (key_name : String) : List (BlobGCS BucketGCS) → Bool
  | [] => false
  | obj :: rest =>
    if obj.name = key_name then true
    else if pyStartsWith obj.name (key_name ++ sep) then true
    else existsLoop key_name rest

/-- BucketClientGCS.exists: run the matching loop over the blobs listed
for the path with no prefix and no delimiter. -/
def existsPath (c : GCSClient) (path : PurePathy) : Bool :=
  existsLoop path.key (list_blobs c path none none).yielded

/-- The state of the optional vendor SDK import and of vendor client
construction by the BucketClientGCS constructor: the module may be
unavailable (the import failed, storage is None), construction may
succeed with a fresh client, or construction may raise. -/
inductive SdkEnv
  | unavailable
  | constructs (fresh : GCSClient)
  | raises

/-- The constructor of BucketClientGCS: it receives an optional client
argument but never reads it; the stored client is a freshly constructed
vendor client when the module is present and construction succeeds, and
None when the module is absent or construction raises. -/
def init (env : SdkEnv) (client : Option GCSClient) : Option GCSClient :=
  match env with
  | .unavailable => none
  | .constructs fresh => some fresh
  | .raises => none

/-- BucketGCS.copy_blob: copyFn models the vendor copy call on the source
native bucket (its arguments: the raw source blob, the target native
bucket and the new name).  A None vendor result gives None; otherwise the
returned record carries the native handle stored in the bucket field of
the BucketGCS the method was invoked on. -/
def copy_blob (copyFn : NativeBlob → NativeBucket → String → Option NativeBlob)
    (self : BucketGCS) (blob : BlobGCS NativeBucket) (target : BucketGCS) (name : String) :
    Option (BlobGCS NativeBucket) :=
  match copyFn blob.raw target.bucket name with
  | none => none
  | some native_blob =>
    some ⟨self.bucket, native_blob.owner, native_blob.name, native_blob,
          native_blob.size, native_blob.updated.timestamp⟩

/-- The native items a pagination chain delivers to the loops above, in
order: the items of the pages of each successive response, stopping
after a response without continuation token, or at a fetch error. -/
def chainItems : List (Except GcsError ListResponse) → List NativeBlob
  | [] => []
  | .error _ :: _ => []
  | .ok ⟨pages, none⟩ :: _ => (pages.map Page.items).flatten
  | .ok ⟨pages, some _⟩ :: rest => (pages.map Page.items).flatten ++ chainItems rest

/-! Concrete fixtures used by witness and counterexample theorems. -/

/-- A native bucket for the happy-path fixtures. -/
def nbW : NativeBucket := ⟨"bkt"⟩

/-- One stored object, key foo/bar.txt. -/
def itemW : NativeBlob := ⟨"foo/bar.txt", 3, ⟨100⟩, some "alice"⟩

/-- A client with one bucket named bkt holding itemW, delivered in a
single page with no continuation token. -/
def cW1 : GCSClient :=
  ⟨fun r => if r = "bkt" then .ok (some nbW) else .ok none,
   [nbW],
   fun _ _ _ => [.ok ⟨[⟨[], [itemW]⟩], none⟩]⟩

/-- The path bkt, key foo: a proper directory-style ancestor of itemW. -/
def pW1 : PurePathy := ⟨"bkt", "foo"⟩

/-- A client whose bucket lookup succeeds but whose first page fetch
raises a client error. -/
def cFetchErr : GCSClient :=
  ⟨fun _ => .ok (some ⟨"b"⟩), [], fun _ _ _ => [.error ⟨"boom", 503⟩]⟩

/-- The path used against the erroring clients. -/
def pErr : PurePathy := ⟨"b", "k"⟩

/-- A client whose vendor bucket-lookup call itself raises. -/
def cLookupErr : GCSClient :=
  ⟨fun _ => .error ⟨"denied", 403⟩, [], fun _ _ _ => [.ok ⟨[⟨[], []⟩], none⟩]⟩

/-- A client whose bucket b4 contains an object with an empty key. -/
def cEmptyKey : GCSClient :=
  ⟨fun _ => .ok (some ⟨"b4"⟩), [], fun _ _ _ => [.ok ⟨[⟨[], [⟨"", 0, ⟨0⟩, none⟩]⟩], none⟩]⟩

/-- The path naming bucket b4. -/
def pEmptyKey : PurePathy := ⟨"b4", ""⟩

/-- The directory-marker style item whose key a slash terminates, so the
last segment of its key is empty. -/
def itemMarker : NativeBlob := ⟨"a/", 1, ⟨5⟩, none⟩

/-- A client whose bucket b6 contains only itemMarker. -/
def cMarker : GCSClient :=
  ⟨fun _ => .ok (some ⟨"b6"⟩), [], fun _ _ _ => [.ok ⟨[⟨[], [itemMarker]⟩], none⟩]⟩

/-- The path naming bucket b6 with key a. -/
def pMarker : PurePathy := ⟨"b6", "a"⟩

/-- A client with two buckets, for the rootless scandir witness. -/
def cW5 : GCSClient :=
  ⟨fun _ => .ok none, [⟨"alpha"⟩, ⟨"beta"⟩], fun _ _ _ => []⟩

/-- A client whose vendor bucket lookup reports no bucket. -/
def cNoBucket : GCSClient :=
  ⟨fun _ => .ok none, [], fun _ _ _ => []⟩

/-- First item of the two-page pagination fixture. -/
def itA : NativeBlob := ⟨"x/a", 1, ⟨10⟩, none⟩

/-- Second item of the two-page pagination fixture. -/
def itB : NativeBlob := ⟨"x/b", 2, ⟨20⟩, some "o"⟩

/-- A client delivering two single-page responses joined by a
continuation token. -/
def cW7 : GCSClient :=
  ⟨fun _ => .ok (some ⟨"b7"⟩), [],
   fun _ _ _ => [.ok ⟨[⟨[], [itA]⟩], some "tok"⟩, .ok ⟨[⟨[], [itB]⟩], none⟩]⟩

/-- The path naming bucket b7. -/
def pW7 : PurePathy := ⟨"b7", ""⟩

/-- The result of the vendor copy call in the copy_blob witness. -/
def nbCopied : NativeBlob := ⟨"copied.txt", 9, ⟨77⟩, some "o2"⟩

/-- A vendor copy collaborator that always succeeds with nbCopied. -/
def copyFnW : NativeBlob → NativeBucket → String → Option NativeBlob :=
  fun _ _ _ => some nbCopied

/-- The source bucket of the copy_blob witness. -/
def srcBucket : BucketGCS := ⟨"src", ⟨"src-native"⟩⟩

/-- The target bucket of the copy_blob witness. -/
def dstBucket : BucketGCS := ⟨"dst", ⟨"dst-native"⟩⟩

/-- The blob being copied in the copy_blob witness. -/
def blobW : BlobGCS NativeBucket := ⟨⟨"src-native"⟩, none, "orig.txt", ⟨"orig.txt", 9, ⟨70⟩, none⟩, 9, 70⟩

/-! Helper lemmas shared by the claim theorems below. -/

/-- When the vendor lookup returns a native bucket, lookup_bucket wraps
it with the path root as name. -/
theorem lookup_bucket_ok (c : GCSClient) (p : PurePathy) (nb : NativeBucket)
    (hb : c.bucket p.root = .ok (some nb)) :
    lookup_bucket c p = some ⟨p.root, nb⟩ := by
  unfold lookup_bucket
  rw [hb]

/-- When the vendor lookup raises, lookup_bucket swallows the error. -/
theorem lookup_bucket_raised (c : GCSClient) (p : PurePathy) (e : GcsError)
    (hb : c.bucket p.root = .error e) :
    lookup_bucket c p = none := by
  unfold lookup_bucket
  rw [hb]

/-- The blobs yielded by the list_blobs pagination loop are exactly the
items the chain delivers, each wrapped by mkBlob, in delivery order. -/
theorem blobLoop_yielded (b : BucketGCS) :
    ∀ chain, (blobLoop b chain).yielded = (chainItems chain).map (mkBlob b)
  | [] => rfl
  | .error e :: _ => rfl
  | .ok ⟨pages, none⟩ :: rest => by
    simp [blobLoop, chainItems, List.map_flatten, List.map_map, Function.comp_def]
  | .ok ⟨pages, some t⟩ :: rest => by
    have ih := blobLoop_yielded b rest
    simp [blobLoop, chainItems, List.map_flatten, List.map_map, Function.comp_def, ih]

/-- The exists loop returns true exactly when some listed object name
equals the key or extends it by the separator. -/
theorem existsLoop_eq_true_iff (k : String) :
    ∀ l : List (BlobGCS BucketGCS),
      existsLoop k l = true ↔
        ∃ obj ∈ l, obj.name = k ∨ pyStartsWith obj.name (k ++ sep) = true
  | [] => by simp [existsLoop]
  | obj :: rest => by
    by_cases h1 : obj.name = k
    · simp [existsLoop, h1]
    · by_cases h2 : pyStartsWith obj.name (k ++ sep) = true
      · simp [existsLoop, h1, h2]
      · simp [existsLoop, h1, h2, existsLoop_eq_true_iff k rest]

/-- Membership in the processed entries of one page: an entry is either
a directory entry from a non-empty last segment of a stripped common
prefix, or a file entry from an item whose key has a non-empty last
segment. -/
theorem mem_processScanPage (page : Page) (e : BucketEntryGCS) :
    e ∈ processScanPage page ↔
      (∃ folder ∈ page.prefixes,
        splitLastSeg (if endsWithSep folder then dropLastChar folder else folder) ≠ "" ∧
        e = ⟨splitLastSeg (if endsWithSep folder then dropLastChar folder else folder),
             true, none, none, none⟩) ∨
      (∃ item ∈ page.items,
        splitLastSeg item.name ≠ "" ∧
        e = ⟨splitLastSeg item.name, false, some item.size,
             some item.updated.timestamp, some item⟩) := by
  simp only [processScanPage, List.mem_append, List.mem_filterMap]
  constructor
  · rintro (⟨folder, hf, hsome⟩ | ⟨item, hi, hsome⟩)
    · by_cases hn : splitLastSeg (if endsWithSep folder then dropLastChar folder else folder) = ""
      · rw [if_pos hn] at hsome
        exact absurd hsome (by simp)
      · rw [if_neg hn] at hsome
        exact Or.inl ⟨folder, hf, hn, (Option.some.injEq _ _ ▸ hsome).symm⟩
    · by_cases hn : splitLastSeg item.name = ""
      · rw [if_pos hn] at hsome
        exact absurd hsome (by simp)
      · rw [if_neg hn] at hsome
        exact Or.inr ⟨item, hi, hn, (Option.some.injEq _ _ ▸ hsome).symm⟩
  · rintro (⟨folder, hf, hn, rfl⟩ | ⟨item, hi, hn, rfl⟩)
    · exact Or.inl ⟨folder, hf, by rw [if_neg hn]⟩
    · exact Or.inr ⟨item, hi, by rw [if_neg hn]⟩

/-- Every entry built from a page has a non-empty name. -/
theorem processScanPage_names (page : Page) :
    ∀ e ∈ processScanPage page, e.name ≠ "" := by
  intro e he
  rcases (mem_processScanPage page e).mp he with ⟨f, _, hne, rfl⟩ | ⟨i, _, hne, rfl⟩
  · exact hne
  · exact hne

/-- Every entry yielded by the scandir pagination loop has a non-empty
name. -/
theorem scanLoop_names :
    ∀ chain, ∀ e ∈ (scanLoop chain).yielded, e.name ≠ ""
  | [] => by simp [scanLoop]
  | .error er :: _ => by simp [scanLoop]
  | .ok ⟨pages, none⟩ :: _ => by
    intro e he
    simp only [scanLoop, List.mem_flatten, List.mem_map] at he
    obtain ⟨l, ⟨page, hp, rfl⟩, hel⟩ := he
    exact processScanPage_names page e hel
  | .ok ⟨pages, some t⟩ :: rest => by
    intro e he
    simp only [scanLoop, List.mem_append, List.mem_flatten, List.mem_map] at he
    rcases he with ⟨l, ⟨page, hp, rfl⟩, hel⟩ | he2
    · exact processScanPage_names page e hel
    · exact scanLoop_names rest e he2

/-- Unfolding scandir on a path with a non-empty root whose bucket
lookup succeeds. -/
theorem scandir_some (c : GCSClient) (p : PurePathy) (pre delim : Option String)
    (nb : NativeBucket) (hroot : p.root ≠ "") (hb : c.bucket p.root = .ok (some nb)) :
    scandir c (some p) pre delim = scanLoop (c.pagination p.root pre (some sep)) := by
  have hlook : lookup_bucket c p = some ⟨p.root, nb⟩ := lookup_bucket_ok c p nb hb
  simp only [scandir, if_neg hroot, hlook]

/-- Unfolding scandir on a path with a non-empty root whose bucket
lookup fails. -/
theorem scandir_absent (c : GCSClient) (p : PurePathy) (pre delim : Option String)
    (hroot : p.root ≠ "") (hlook : lookup_bucket c p = none) :
    scandir c (some p) pre delim = ⟨[], none⟩ := by
  simp only [scandir, if_neg hroot, hlook]

/-- Unfolding list_blobs when the bucket lookup succeeds. -/
theorem list_blobs_some (c : GCSClient) (p : PurePathy) (pre delim : Option String)
    (nb : NativeBucket) (hb : c.bucket p.root = .ok (some nb)) :
    list_blobs c p pre delim = blobLoop ⟨p.root, nb⟩ (c.pagination p.root pre delim) := by
  have hlook : lookup_bucket c p = some ⟨p.root, nb⟩ := lookup_bucket_ok c p nb hb
  simp only [list_blobs, hlook]

/-- Unfolding list_blobs when the bucket lookup fails. -/
theorem list_blobs_absent (c : GCSClient) (p : PurePathy) (pre delim : Option String)
    (hlook : lookup_bucket c p = none) :
    list_blobs c p pre delim = ⟨[], none⟩ := by
  simp only [list_blobs, hlook]

/-! The claim theorems. -/

/-- Claim C1: for a path whose root names an existing bucket and whose
listing completes without a client error, exists returns true exactly
when some object key the listing delivers equals the path key or starts
with the key followed by the separator; with no such object after
exhausting the listing it returns false. -/
theorem claim1_exists_iff_match (c : GCSClient) (p : PurePathy) (nb : NativeBucket)
    (hb : c.bucket p.root = .ok (some nb))
    (he : (list_blobs c p none none).error = none) :
    existsPath c p = true ↔
      ∃ item ∈ chainItems (c.pagination p.root none none),
        item.name = p.key ∨ pyStartsWith item.name (p.key ++ sep) = true := by
  unfold existsPath
  rw [list_blobs_some c p none none nb hb, blobLoop_yielded, existsLoop_eq_true_iff]
  constructor
  · rintro ⟨obj, hmem, hP⟩
    obtain ⟨item, hitem, rfl⟩ := List.mem_map.mp hmem
    exact ⟨item, hitem, hP⟩
  · rintro ⟨item, hitem, hP⟩
    exact ⟨mkBlob ⟨p.root, nb⟩ item, List.mem_map_of_mem _ hitem, hP⟩

/-- Witness for claim C1: the key foo is a proper directory-style
ancestor of the stored key foo/bar.txt, so exists is true. -/
theorem claim1_witness : existsPath cW1 pW1 = true :=
  (claim1_exists_iff_match cW1 pW1 nbW rfl rfl).mpr ⟨itemW, by decide, by decide⟩

/-- Claim C2: when the vendor lookup reports no bucket, get_bucket fails
with the FileNotFoundError message while lookup_bucket returns None
without raising. -/
theorem claim2_get_bucket_raises_lookup_absent (c : GCSClient) (p : PurePathy)
    (h : c.bucket p.root = .ok none) :
    get_bucket c p = .error (.fileNotFound ("Bucket " ++ p.root ++ " does not exist!")) ∧
    lookup_bucket c p = none := by
  constructor
  · unfold get_bucket
    rw [h]
  · unfold lookup_bucket
    rw [h]

/-- Witness for claim C2 on a concrete missing bucket. -/
theorem claim2_witness :
    get_bucket cNoBucket ⟨"nosuch", ""⟩ =
      .error (.fileNotFound "Bucket nosuch does not exist!") ∧
    lookup_bucket cNoBucket ⟨"nosuch", ""⟩ = none :=
  claim2_get_bucket_raises_lookup_absent cNoBucket ⟨"nosuch", ""⟩ rfl

/-- Counterexample to claim C3 as stated: over a bucket whose first page
fetch raises a client error, scandir and list_blobs let the error escape
the generator instead of yielding zero entries without error. -/
theorem claim3_counterexample :
    (scandir cFetchErr (some pErr) none none).error = some ⟨"boom", 503⟩ ∧
    (list_blobs cFetchErr pErr none none).error = some ⟨"boom", 503⟩ :=
  ⟨rfl, rfl⟩

/-- Claim C3 (amended): a client error raised by the underlying bucket
lookup makes scandir and list_blobs yield zero entries without
propagating, but a client error raised by a page fetch itself escapes
both generators. -/
theorem claim3_amended_error_policy (c : GCSClient) (p : PurePathy)
    (pre delim : Option String) (e : GcsError) (nb : NativeBucket)
    (rest : List (Except GcsError ListResponse)) (hroot : p.root ≠ "") :
    (c.bucket p.root = .error e →
      scandir c (some p) pre delim = ⟨[], none⟩ ∧
      list_blobs c p pre delim = ⟨[], none⟩) ∧
    (c.bucket p.root = .ok (some nb) →
      c.pagination p.root pre (some sep) = .error e :: rest →
      (scandir c (some p) pre delim).error = some e) ∧
    (c.bucket p.root = .ok (some nb) →
      c.pagination p.root pre delim = .error e :: rest →
      (list_blobs c p pre delim).error = some e) := by
  refine ⟨fun hb => ?_, fun hb hpag => ?_, fun hb hpag => ?_⟩
  · have hlook := lookup_bucket_raised c p e hb
    exact ⟨scandir_absent c p pre delim hroot hlook, list_blobs_absent c p pre delim hlook⟩
  · rw [scandir_some c p pre delim nb hroot hb, hpag]
    rfl
  · rw [list_blobs_some c p pre delim nb hb, hpag]
    rfl

/-- Witness for the amended claim C3: a swallowed lookup error and a
propagated fetch error, each at a concrete client. -/
theorem claim3_amended_witness :
    scandir cLookupErr (some pErr) none none = ⟨[], none⟩ ∧
    (scandir cFetchErr (some pErr) none none).error = some ⟨"boom", 503⟩ :=
  ⟨((claim3_amended_error_policy cLookupErr pErr none none ⟨"denied", 403⟩ ⟨"b"⟩ []
      (by decide)).1 rfl).1,
   (claim3_amended_error_policy cFetchErr pErr none none ⟨"boom", 503⟩ ⟨"b"⟩ []
      (by decide)).2.1 rfl rfl⟩

/-- Counterexample to claim C4 as stated: list_blobs applies no name
filter, so a bucket holding an object whose key is the empty string
yields a Blob whose name is the empty string. -/
theorem claim4_counterexample :
    ((list_blobs cEmptyKey pEmptyKey none none).yielded.map (fun b => b.name)) = [""] := by
  decide

/-- Claim C4 (amended): every entry yielded by scandir over a path with
a non-empty root has a non-empty name, whereas list_blobs copies each
delivered object key verbatim into the Blob name, with no filtering. -/
theorem claim4_amended_nonempty_names (c : GCSClient) (p : PurePathy)
    (pre delim : Option String) (nb : NativeBucket)
    (hroot : p.root ≠ "") (hb : c.bucket p.root = .ok (some nb)) :
    ((scandir c (some p) pre delim).yielded.all (fun entry => entry.name != "")) = true ∧
    ((list_blobs c p pre delim).yielded.map (fun blob => blob.name)) =
      (chainItems (c.pagination p.root pre delim)).map NativeBlob.name := by
  constructor
  · rw [scandir_some c p pre delim nb hroot hb]
    simp only [List.all_eq_true, bne_iff_ne, ne_eq]
    exact fun e he => scanLoop_names _ e he
  · rw [list_blobs_some c p pre delim nb hb, blobLoop_yielded, List.map_map]
    rfl

/-- Witness for the amended claim C4 at a concrete store. -/
theorem claim4_amended_witness :
    ((scandir cW1 (some pW1) none none).yielded.all (fun entry => entry.name != "")) = true ∧
    ((list_blobs cW1 pW1 none none).yielded.map (fun blob => blob.name)) =
      (chainItems (cW1.pagination pW1.root none none)).map NativeBlob.name :=
  claim4_amended_nonempty_names cW1 pW1 none none nbW (by decide) rfl

/-- Claim C5: scandir with no path, or with a path whose root is empty,
yields exactly one directory entry per bucket of the vendor enumeration,
in listing order, then terminates normally; the prefix and delimiter
arguments do not influence this output. -/
theorem claim5_scandir_rootless (c : GCSClient) (pre delim : Option String)
    (p : PurePathy) (hroot : p.root = "") :
    scandir c none pre delim =
      ⟨c.list_buckets.map (fun b => ⟨b.name, true, none, none, none⟩), none⟩ ∧
    scandir c (some p) pre delim =
      ⟨c.list_buckets.map (fun b => ⟨b.name, true, none, none, none⟩), none⟩ := by
  constructor
  · rfl
  · simp only [scandir, if_pos hroot]

/-- Witness for claim C5 with two buckets and non-trivial prefix and
delimiter arguments. -/
theorem claim5_witness :
    scandir cW5 none (some "x") (some "y") =
      ⟨[⟨"alpha", true, none, none, none⟩, ⟨"beta", true, none, none, none⟩], none⟩ ∧
    scandir cW5 (some ⟨"", "k"⟩) (some "x") (some "y") =
      ⟨[⟨"alpha", true, none, none, none⟩, ⟨"beta", true, none, none, none⟩], none⟩ :=
  claim5_scandir_rootless cW5 (some "x") (some "y") ⟨"", "k"⟩ rfl

/-- Counterexample to claim C6 as stated: an item whose key the
separator terminates (a slash-terminated marker object) has an empty
last segment and is skipped, so it does not become a file entry. -/
theorem claim6_counterexample :
    processScanPage ⟨[], [itemMarker]⟩ = [] ∧
    (scandir cMarker (some pMarker) none none).yielded = [] :=
  ⟨rfl, rfl⟩

/-- Claim C6 (amended): the entries produced from a page processed by
scandir are exactly the directory entries named by the non-empty last
segment of each common prefix stripped of its trailing separator, and
the file entries named by the non-empty last segment of each item key,
carrying size and update time as epoch seconds; in both cases an empty
computed name is skipped. -/
theorem claim6_amended_page_entries (page : Page) (e : BucketEntryGCS) :
    e ∈ processScanPage page ↔
      (∃ folder ∈ page.prefixes,
        splitLastSeg (if endsWithSep folder then dropLastChar folder else folder) ≠ "" ∧
        e = ⟨splitLastSeg (if endsWithSep folder then dropLastChar folder else folder),
             true, none, none, none⟩) ∨
      (∃ item ∈ page.items,
        splitLastSeg item.name ≠ "" ∧
        e = ⟨splitLastSeg item.name, false, some item.size,
             some item.updated.timestamp, some item⟩) :=
  mem_processScanPage page e

/-- Claim C7: over a path whose root names an existing bucket,
list_blobs yields exactly one record per item the pagination chain
delivers, in delivery order across token-joined fetches, each record
built by mkBlob (carrying the resolved bucket, the item owner, the full
key as name, the raw handle, the size and the update time as epoch
seconds); common prefixes never contribute. -/
theorem claim7_list_blobs_records (c : GCSClient) (p : PurePathy)
    (pre delim : Option String) (nb : NativeBucket)
    (hb : c.bucket p.root = .ok (some nb)) :
    (list_blobs c p pre delim).yielded =
      (chainItems (c.pagination p.root pre delim)).map (mkBlob ⟨p.root, nb⟩) := by
  rw [list_blobs_some c p pre delim nb hb, blobLoop_yielded]

/-- Witness for claim C7 on a two-page pagination joined by a
continuation token. -/
theorem claim7_witness :
    (list_blobs cW7 pW7 none none).yielded =
      (chainItems (cW7.pagination pW7.root none none)).map (mkBlob ⟨pW7.root, ⟨"b7"⟩⟩) :=
  claim7_list_blobs_records cW7 pW7 none none ⟨"b7"⟩ rfl

/-- Claim C8: exists returns true whenever a matching object is among
those the listing yields (in particular at the first match), and returns
false rather than raising when the listing ends in a client error with
no match among the objects yielded before the error. -/
theorem claim8_exists_error_swallowed (c : GCSClient) (p : PurePathy) :
    ((∃ obj ∈ (list_blobs c p none none).yielded,
        obj.name = p.key ∨ pyStartsWith obj.name (p.key ++ sep) = true) →
      existsPath c p = true) ∧
    ((list_blobs c p none none).error.isSome = true →
      (∀ obj ∈ (list_blobs c p none none).yielded,
        ¬(obj.name = p.key ∨ pyStartsWith obj.name (p.key ++ sep) = true)) →
      existsPath c p = false) := by
  constructor
  · intro h
    exact (existsLoop_eq_true_iff p.key _).mpr h
  · intro _ hnone
    cases hB : existsPath c p with
    | false => rfl
    | true =>
      obtain ⟨obj, hmem, hP⟩ := (existsLoop_eq_true_iff p.key _).mp hB
      exact absurd hP (hnone obj hmem)

/-- Witness for claim C8: a concrete match returning true, and a
concrete erroring listing returning false. -/
theorem claim8_witness :
    existsPath cW1 pW1 = true ∧ existsPath cFetchErr pErr = false :=
  ⟨(claim8_exists_error_swallowed cW1 pW1).1
      ⟨mkBlob ⟨"bkt", nbW⟩ itemW, by decide, by decide⟩,
   (claim8_exists_error_swallowed cFetchErr pErr).2 rfl (by decide)⟩

/-- Claim C9: the constructor ignores its client argument; the stored
client depends only on the SDK environment, being the freshly
constructed vendor client on success and None when the module is absent
or construction raises. -/
theorem claim9_init_ignores_argument (env : SdkEnv) (a b : Option GCSClient) :
    init env a = init env b ∧
    init env a = (match env with
      | .unavailable => none
      | .constructs fresh => some fresh
      | .raises => none) := by
  cases env <;> exact ⟨rfl, rfl⟩

/-- Claim C10: when the vendor copy call returns a new object, copy_blob
returns a record whose bucket field is the native handle of the source
bucket the method was invoked on; when the source and target handles
differ, that field is therefore not the target handle. -/
theorem claim10_copy_blob_source_bucket
    (copyFn : NativeBlob → NativeBucket → String → Option NativeBlob)
    (self target : BucketGCS) (blob : BlobGCS NativeBucket) (name : String)
    (nb : NativeBlob) (h : copyFn blob.raw target.bucket name = some nb) :
    ∃ r, copy_blob copyFn self blob target name = some r ∧
      r.bucket = self.bucket ∧
      (self.bucket ≠ target.bucket → r.bucket ≠ target.bucket) := by
  refine ⟨⟨self.bucket, nb.owner, nb.name, nb, nb.size, nb.updated.timestamp⟩,
    ?_, rfl, fun hne => hne⟩
  unfold copy_blob
  rw [h]

/-- Witness for claim C10 on a concrete copy between distinct buckets. -/
theorem claim10_witness :
    ∃ r, copy_blob copyFnW srcBucket blobW dstBucket "copied.txt" = some r ∧
      r.bucket = srcBucket.bucket ∧
      (srcBucket.bucket ≠ dstBucket.bucket → r.bucket ≠ dstBucket.bucket) :=
  claim10_copy_blob_source_bucket copyFnW srcBucket dstBucket blobW "copied.txt" nbCopied rfl

end PathyGCS
